import Mathlib

/-!
Verification of `src/pgp/data_decrypt.go` from terraform-provider-pgp.

The file shallowly embeds the two core functions of the source,
`getPrivateKeyPacket` and `decrypt`, in Lean.  The external library calls
(`armor.Decode`, `openpgp.ReadEntity`, `openpgp.ReadMessage`,
`gzip.NewReader`, `ioutil.ReadAll`) are abstracted into an oracle
structure `PGPLib`; the control flow, error wrapping and buffer handling
of the source are embedded exactly.  Byte slices are `List Nat`.
-/

namespace PGP

/-- Result of `armor.Decode`: a block with a type label and a body stream
(Go: `block.Type`, `block.Body`). -/
structure ArmorBlock where
  typeLabel : String
  body : List Nat
  deriving Repr, DecidableEq

/-- An OpenPGP key entity (`*openpgp.Entity`); its internals are opaque to
the source, so it is modelled as a tagged atom. -/
structure Entity where
  tag : Nat
  deriving Repr, DecidableEq

/-- The part of `*openpgp.MessageDetails` the source can observe:
`UnverifiedBody` drained by `ioutil.ReadAll` (bytes, or a read fault), and
the `SignatureError` field the library fills in after the body is drained.
The source never reads `signatureError`. -/
structure MessageDetails where
  unverifiedBody : Except String (List Nat)
  signatureError : Option String
  deriving Repr

/-- A `*gzip.Reader` as the source observes it: draining it with
`ioutil.ReadAll` yields bytes or a read fault. -/
structure GzipReader where
  readAll : Except String (List Nat)
  deriving Repr

/-- The external library surface used by the source.  `readMessage`
mirrors `openpgp.ReadMessage(r, keyring, prompt, config)`; the last two
arguments model the `prompt` callback and `config` that the source passes
as `nil, nil`.  `readEntity` mirrors `openpgp.ReadEntity` on a
`packet.Reader`: it consumes a prefix of the stream and returns the
entity together with the unconsumed remainder of the stream. -/
structure PGPLib where
  armorDecode : List Nat → Except String ArmorBlock
  readEntity : List Nat → Except String (Entity × List Nat)
  readMessage : List Nat → List Entity → Option Nat → Option Nat →
    Except String MessageDetails
  gzipNewReader : List Nat → Except String GzipReader

/-- Go constant `openpgp.PrivateKeyType`. -/
def PrivateKeyType : String := "PGP PRIVATE KEY BLOCK"

/-- Errors of `getPrivateKeyPacket`, tagged by the site that produced
them: the `armor.Decode` error returned unwrapped, the literal
`errors.New("Invalid private key data")`, and the `openpgp.ReadEntity`
error returned unwrapped. -/
inductive KeyError where
  | armorDecode (msg : String)
  | invalidKeyType
  | readEntity (msg : String)
  deriving Repr, DecidableEq

/-- Errors of `decrypt`, one constructor per `return []byte{}, err` site
of the source, carrying the underlying library error message:
`fmt.Errorf("Error decoding: %v", err)`,
`errors.New("Invalid message type")`,
`fmt.Errorf("Error reading message: %v", err)`,
`fmt.Errorf("Error reading unverified body: %v", err)`,
`fmt.Errorf("Error initializing gzip reader: %v", err)`, and the gzip
`ReadAll` error returned unwrapped. -/
inductive DecryptError where
  | armorDecode (msg : String)
  | invalidMessageType
  | messageRead (msg : String)
  | bodyRead (msg : String)
  | gzipInit (msg : String)
  | gzipRead (msg : String)
  deriving Repr, DecidableEq

/-- Resource events emitted by `decrypt`: opening the gzip reader
(`gzip.NewReader` succeeding) and closing it (`defer uncompressed.Close()`
firing when the function returns). -/
inductive Event where
  | gzipOpen
  | gzipClose
  deriving Repr, DecidableEq

/-- The pair of Go return values `([]byte, error)` of `decrypt`, plus the
trace of gzip resource events of the call. -/
structure DecryptResult where
  plaintext : List Nat
  err : Option DecryptError
  events : List Event
  deriving Repr, DecidableEq

/-- Embedding of `getPrivateKeyPacket` (src/pgp/data_decrypt.go:90-104):
armor-decode the input, check the block type label against
`openpgp.PrivateKeyType`, then read ONE entity from the block body with
`openpgp.ReadEntity`; whatever remains unconsumed in the packet reader is
dropped when the function returns. -/
def getPrivateKeyPacket (lib : PGPLib) (privateKey : List Nat) :
    Except KeyError Entity :=
  match lib.armorDecode privateKey with
  | .error e => .error (.armorDecode e)
  | .ok block =>
    if block.typeLabel ≠ PrivateKeyType then
      .error .invalidKeyType
    else
      match lib.readEntity block.body with
      | .error e => .error (.readEntity e)
      | .ok (entity, _rest) => .ok entity

/-- Embedding of `decrypt` (src/pgp/data_decrypt.go:106-163).  The
entity list is the singleton `[entity]`; `openpgp.ReadMessage` is always
invoked with `nil, nil` for prompt and config (modelled `none none`).
When `encoding == "armored"` the input is armor-decoded and its type
label checked against `"Message"` first; the unverified body is drained;
then, again only when `encoding == "armored"`, a gzip reader is opened
over the drained bytes, closed on every subsequent exit path
(`defer uncompressed.Close()`), and drained to give the plaintext.  In
every other encoding the drained bytes are re-read through
`bytes.NewReader` (an in-memory read that cannot fault) and returned
unchanged.  Every error site of the source returns the empty buffer
`[]byte{}`. -/
def decrypt (lib : PGPLib) (entity : Entity) (encrypted : List Nat)
    (encoding : String) : DecryptResult :=
  let entityList := [entity]
  let messageReader : Except DecryptError MessageDetails :=
    if encoding = "armored" then
      match lib.armorDecode encrypted with
      | .error e => .error (.armorDecode e)
      | .ok block =>
        if block.typeLabel ≠ "Message" then
          .error .invalidMessageType
        else
          match lib.readMessage block.body entityList none none with
          | .error e => .error (.messageRead e)
          | .ok md => .ok md
    else
      match lib.readMessage encrypted entityList none none with
      | .error e => .error (.messageRead e)
      | .ok md => .ok md
  match messageReader with
  | .error e => ⟨[], some e, []⟩
  | .ok md =>
    match md.unverifiedBody with
    | .error e => ⟨[], some (.bodyRead e), []⟩
    | .ok readBytes =>
      if encoding = "armored" then
        match lib.gzipNewReader readBytes with
        | .error e => ⟨[], some (.gzipInit e), []⟩
        | .ok uncompressed =>
          match uncompressed.readAll with
          | .error e => ⟨[], some (.gzipRead e), [.gzipOpen, .gzipClose]⟩
          | .ok out => ⟨out, none, [.gzipOpen, .gzipClose]⟩
      else
        ⟨readBytes, none, []⟩

/-! Concrete sample library values used to evaluate the theorems on
closed inputs. -/

/-- A sample armored message block. -/
def msgBlock : ArmorBlock := ⟨"Message", [1, 2, 3]⟩

/-- A sample armored private-key block. -/
def keyBlock : ArmorBlock := ⟨PrivateKeyType, [9]⟩

/-- A sample armored public-key block (wrong label for both paths). -/
def pubBlock : ArmorBlock := ⟨"PGP PUBLIC KEY BLOCK", [8]⟩

/-- A sample key entity. -/
def sampleEntity : Entity := ⟨0⟩

/-- A concrete instance of the library surface, rich enough to drive
every path of `decrypt` and `getPrivateKeyPacket`. -/
def sampleLib : PGPLib where
  armorDecode := fun b =>
    if b = [0] then .ok msgBlock
    else if b = [1] then .ok ⟨"Message", [6]⟩
    else if b = [2] then .ok ⟨"Message", [1, 2]⟩
    else if b = [3] then .ok ⟨"Message", [1, 3]⟩
    else if b = [4] then .ok ⟨"Message", [1, 4]⟩
    else if b = [7] then .ok keyBlock
    else if b = [5] then .ok pubBlock
    else .error "invalid armor"
  readEntity := fun b =>
    if b = [9] then .ok (⟨0⟩, [4, 4])
    else .error "entity parse failure"
  readMessage := fun b _el _p _c =>
    if b = [1, 2, 3] then .ok ⟨.ok [10, 11], none⟩
    else if b = [1, 2] then .ok ⟨.error "unexpected EOF", none⟩
    else if b = [1, 3] then .ok ⟨.ok [11], none⟩
    else if b = [1, 4] then .ok ⟨.ok [12], none⟩
    else .error "incorrect key"
  gzipNewReader := fun b =>
    if b = [10, 11] then .ok ⟨.ok [42]⟩
    else if b = [12] then .ok ⟨.error "gzip corrupt"⟩
    else .error "gzip invalid header"

/-! Path lemmas: one equation of `decrypt` per control-flow path of the
source function.  The claim theorems below are assembled from these. -/

/-- Armored mode, `armor.Decode` fails: the armor error is wrapped and the
empty buffer returned (src line 114-117). -/
theorem decrypt_armored_armor_error (lib : PGPLib) (entity : Entity)
    (encrypted : List Nat) (e : String)
    (h : lib.armorDecode encrypted = .error e) :
    decrypt lib entity encrypted "armored" = ⟨[], some (.armorDecode e), []⟩ := by
  simp [decrypt, h]

/-- Armored mode, armor decodes but the label is not "Message"
(src line 119-121). -/
theorem decrypt_armored_bad_label (lib : PGPLib) (entity : Entity)
    (encrypted : List Nat) (block : ArmorBlock)
    (h : lib.armorDecode encrypted = .ok block)
    (hl : block.typeLabel ≠ "Message") :
    decrypt lib entity encrypted "armored" = ⟨[], some .invalidMessageType, []⟩ := by
  simp [decrypt, h, hl]

/-- Armored mode, `openpgp.ReadMessage` fails on the block body
(src line 123-126). -/
theorem decrypt_armored_read_message_error (lib : PGPLib) (entity : Entity)
    (encrypted : List Nat) (block : ArmorBlock) (e : String)
    (h : lib.armorDecode encrypted = .ok block)
    (hl : block.typeLabel = "Message")
    (hm : lib.readMessage block.body [entity] none none = .error e) :
    decrypt lib entity encrypted "armored" = ⟨[], some (.messageRead e), []⟩ := by
  simp [decrypt, h, hl, hm]

/-- Armored mode, draining `UnverifiedBody` fails (src line 134-137). -/
theorem decrypt_armored_body_error (lib : PGPLib) (entity : Entity)
    (encrypted : List Nat) (block : ArmorBlock) (md : MessageDetails)
    (e : String)
    (h : lib.armorDecode encrypted = .ok block)
    (hl : block.typeLabel = "Message")
    (hm : lib.readMessage block.body [entity] none none = .ok md)
    (hb : md.unverifiedBody = .error e) :
    decrypt lib entity encrypted "armored" = ⟨[], some (.bodyRead e), []⟩ := by
  simp [decrypt, h, hl, hm, hb]

/-- Armored mode, `gzip.NewReader` rejects the drained bytes
(src line 142-146). -/
theorem decrypt_armored_gzip_init_error (lib : PGPLib) (entity : Entity)
    (encrypted : List Nat) (block : ArmorBlock) (md : MessageDetails)
    (readBytes : List Nat) (e : String)
    (h : lib.armorDecode encrypted = .ok block)
    (hl : block.typeLabel = "Message")
    (hm : lib.readMessage block.body [entity] none none = .ok md)
    (hb : md.unverifiedBody = .ok readBytes)
    (hg : lib.gzipNewReader readBytes = .error e) :
    decrypt lib entity encrypted "armored" = ⟨[], some (.gzipInit e), []⟩ := by
  simp [decrypt, h, hl, hm, hb, hg]

/-- Armored mode, the gzip reader opens but draining it fails; the
deferred close still fires (src line 147-152). -/
theorem decrypt_armored_gzip_read_error (lib : PGPLib) (entity : Entity)
    (encrypted : List Nat) (block : ArmorBlock) (md : MessageDetails)
    (readBytes : List Nat) (gz : GzipReader) (e : String)
    (h : lib.armorDecode encrypted = .ok block)
    (hl : block.typeLabel = "Message")
    (hm : lib.readMessage block.body [entity] none none = .ok md)
    (hb : md.unverifiedBody = .ok readBytes)
    (hg : lib.gzipNewReader readBytes = .ok gz)
    (hr : gz.readAll = .error e) :
    decrypt lib entity encrypted "armored" =
      ⟨[], some (.gzipRead e), [.gzipOpen, .gzipClose]⟩ := by
  simp [decrypt, h, hl, hm, hb, hg, hr]

/-- Armored mode, full success: the plaintext is the gzip decompression
of the drained unverified body (src line 147-157). -/
theorem decrypt_armored_success (lib : PGPLib) (entity : Entity)
    (encrypted : List Nat) (block : ArmorBlock) (md : MessageDetails)
    (readBytes : List Nat) (gz : GzipReader) (out : List Nat)
    (h : lib.armorDecode encrypted = .ok block)
    (hl : block.typeLabel = "Message")
    (hm : lib.readMessage block.body [entity] none none = .ok md)
    (hb : md.unverifiedBody = .ok readBytes)
    (hg : lib.gzipNewReader readBytes = .ok gz)
    (hr : gz.readAll = .ok out) :
    decrypt lib entity encrypted "armored" =
      ⟨out, none, [.gzipOpen, .gzipClose]⟩ := by
  simp [decrypt, h, hl, hm, hb, hg, hr]

/-- Non-armored mode, `openpgp.ReadMessage` fails on the raw bytes
(src line 128-132). -/
theorem decrypt_raw_read_message_error (lib : PGPLib) (entity : Entity)
    (encrypted : List Nat) (encoding : String) (e : String)
    (henc : encoding ≠ "armored")
    (hm : lib.readMessage encrypted [entity] none none = .error e) :
    decrypt lib entity encrypted encoding = ⟨[], some (.messageRead e), []⟩ := by
  simp [decrypt, henc, hm]

/-- Non-armored mode, draining `UnverifiedBody` fails (src line 134-137). -/
theorem decrypt_raw_body_error (lib : PGPLib) (entity : Entity)
    (encrypted : List Nat) (encoding : String) (md : MessageDetails)
    (e : String)
    (henc : encoding ≠ "armored")
    (hm : lib.readMessage encrypted [entity] none none = .ok md)
    (hb : md.unverifiedBody = .error e) :
    decrypt lib entity encrypted encoding = ⟨[], some (.bodyRead e), []⟩ := by
  simp [decrypt, henc, hm, hb]

/-- Non-armored mode, success: the drained bytes are returned unchanged,
with no decompression and no gzip events (src line 159-163). -/
theorem decrypt_raw_success (lib : PGPLib) (entity : Entity)
    (encrypted : List Nat) (encoding : String) (md : MessageDetails)
    (readBytes : List Nat)
    (henc : encoding ≠ "armored")
    (hm : lib.readMessage encrypted [entity] none none = .ok md)
    (hb : md.unverifiedBody = .ok readBytes) :
    decrypt lib entity encrypted encoding = ⟨readBytes, none, []⟩ := by
  simp [decrypt, henc, hm, hb]

/-- Two `Except`-valued message reads whose images under
`MessageDetails.unverifiedBody` coincide either fail with the same error
or succeed with message details sharing the same unverified body. -/
theorem mapBody_agree {x y : Except String MessageDetails}
    (h : Except.map MessageDetails.unverifiedBody x =
      Except.map MessageDetails.unverifiedBody y) :
    (∃ e, x = .error e ∧ y = .error e) ∨
    (∃ mx my, x = .ok mx ∧ y = .ok my ∧
      mx.unverifiedBody = my.unverifiedBody) := by
  rcases x with e | mx <;> rcases y with e' | my <;>
    simp only [Except.map] at h
  · injection h with h
    subst h
    exact .inl ⟨e, rfl, rfl⟩
  · exact Except.noConfusion h
  · exact Except.noConfusion h
  · injection h with h
    exact .inr ⟨mx, my, rfl, rfl, h⟩

/-- C1.  Compression asymmetry of `decrypt`: in Armored mode the returned
plaintext is the gzip decompression of the fully drained unverified body,
while in any non-armored (Raw) mode the returned plaintext is exactly the
drained unverified body with no decompression applied — for every key
entity and message stream, even when the drained bytes would be accepted
by the gzip reader. -/
theorem decrypt_compression_asymmetry (lib : PGPLib) (entity : Entity)
    (encrypted rawEncrypted : List Nat) (encoding : String)
    (block : ArmorBlock) (md md' : MessageDetails)
    (readBytes readBytes' : List Nat) (gz : GzipReader) (out : List Nat)
    (h : lib.armorDecode encrypted = .ok block)
    (hl : block.typeLabel = "Message")
    (hm : lib.readMessage block.body [entity] none none = .ok md)
    (hb : md.unverifiedBody = .ok readBytes)
    (hg : lib.gzipNewReader readBytes = .ok gz)
    (hr : gz.readAll = .ok out)
    (henc : encoding ≠ "armored")
    (hm' : lib.readMessage rawEncrypted [entity] none none = .ok md')
    (hb' : md'.unverifiedBody = .ok readBytes') :
    decrypt lib entity encrypted "armored" =
      ⟨out, none, [.gzipOpen, .gzipClose]⟩ ∧
    decrypt lib entity rawEncrypted encoding = ⟨readBytes', none, []⟩ :=
  ⟨decrypt_armored_success lib entity encrypted block md readBytes gz out
      h hl hm hb hg hr,
    decrypt_raw_success lib entity rawEncrypted encoding md' readBytes'
      henc hm' hb'⟩

/-- C1 witness: at the sample library, armored input `[0]` decompresses
to `[42]`, and raw input `[1,2,3]` returns the drained body `[10,11]`
unchanged even though `[10,11]` is accepted by the sample gzip reader. -/
theorem decrypt_compression_asymmetry_witness :
    decrypt sampleLib sampleEntity [0] "armored" =
      ⟨[42], none, [.gzipOpen, .gzipClose]⟩ ∧
    decrypt sampleLib sampleEntity [1, 2, 3] "base64" = ⟨[10, 11], none, []⟩ :=
  decrypt_compression_asymmetry sampleLib sampleEntity [0] [1, 2, 3]
    "base64" msgBlock ⟨.ok [10, 11], none⟩ ⟨.ok [10, 11], none⟩
    [10, 11] [10, 11] ⟨.ok [42]⟩ [42]
    (by rfl) (by rfl) (by rfl) (by rfl) (by rfl) (by rfl)
    (by decide) (by rfl) (by rfl)

/-- C2.  When the OpenPGP message-reading algorithm rejects the stream —
wrong key or not a valid encrypted-message packet sequence — `decrypt`
fails with a `messageRead` error and returns the empty buffer, never a
non-empty garbage plaintext, in armored and raw mode alike. -/
theorem decrypt_wrong_key_message_read_error (lib : PGPLib)
    (entity : Entity) (encrypted rawEncrypted : List Nat)
    (encoding : String) (block : ArmorBlock) (e e' : String)
    (h : lib.armorDecode encrypted = .ok block)
    (hl : block.typeLabel = "Message")
    (hm : lib.readMessage block.body [entity] none none = .error e)
    (henc : encoding ≠ "armored")
    (hm' : lib.readMessage rawEncrypted [entity] none none = .error e') :
    decrypt lib entity encrypted "armored" =
      ⟨[], some (.messageRead e), []⟩ ∧
    decrypt lib entity rawEncrypted encoding =
      ⟨[], some (.messageRead e'), []⟩ :=
  ⟨decrypt_armored_read_message_error lib entity encrypted block e h hl hm,
    decrypt_raw_read_message_error lib entity rawEncrypted encoding e'
      henc hm'⟩

/-- C2 witness: armored input `[1]` and raw input `[6]` both hit the
sample library's "incorrect key" rejection and yield the empty buffer. -/
theorem decrypt_wrong_key_message_read_error_witness :
    decrypt sampleLib sampleEntity [1] "armored" =
      ⟨[], some (.messageRead "incorrect key"), []⟩ ∧
    decrypt sampleLib sampleEntity [6] "base64" =
      ⟨[], some (.messageRead "incorrect key"), []⟩ :=
  decrypt_wrong_key_message_read_error sampleLib sampleEntity [1] [6]
    "base64" ⟨"Message", [6]⟩ "incorrect key" "incorrect key"
    (by rfl) (by rfl) (by rfl) (by decide) (by rfl)

/-- C3.  Error atomicity: whenever `decrypt` returns an error, at any
stage and in any encoding, the plaintext buffer returned alongside it is
empty. -/
theorem decrypt_error_atomicity (lib : PGPLib) (entity : Entity)
    (encrypted : List Nat) (encoding : String)
    (h : (decrypt lib entity encrypted encoding).err ≠ none) :
    (decrypt lib entity encrypted encoding).plaintext = [] := by
  by_cases henc : encoding = "armored"
  · subst henc
    rcases ha : lib.armorDecode encrypted with e | block
    · rw [decrypt_armored_armor_error lib entity encrypted e ha]
    · by_cases hl : block.typeLabel = "Message"
      · rcases hm : lib.readMessage block.body [entity] none none with e | md
        · rw [decrypt_armored_read_message_error lib entity encrypted
            block e ha hl hm]
        · rcases hb : md.unverifiedBody with e | readBytes
          · rw [decrypt_armored_body_error lib entity encrypted block md e
              ha hl hm hb]
          · rcases hg : lib.gzipNewReader readBytes with e | gz
            · rw [decrypt_armored_gzip_init_error lib entity encrypted
                block md readBytes e ha hl hm hb hg]
            · rcases hr : gz.readAll with e | out
              · rw [decrypt_armored_gzip_read_error lib entity encrypted
                  block md readBytes gz e ha hl hm hb hg hr]
              · rw [decrypt_armored_success lib entity encrypted block md
                  readBytes gz out ha hl hm hb hg hr] at h
                exact absurd rfl h
      · rw [decrypt_armored_bad_label lib entity encrypted block ha hl]
  · rcases hm : lib.readMessage encrypted [entity] none none with e | md
    · rw [decrypt_raw_read_message_error lib entity encrypted encoding e
        henc hm]
    · rcases hb : md.unverifiedBody with e | readBytes
      · rw [decrypt_raw_body_error lib entity encrypted encoding md e
          henc hm hb]
      · rw [decrypt_raw_success lib entity encrypted encoding md readBytes
          henc hm hb] at h
        exact absurd rfl h

/-- C3 witness: on armored input `[3]` the sample gzip reader rejects the
header, `decrypt` errs, and the plaintext buffer is empty. -/
theorem decrypt_error_atomicity_witness :
    (decrypt sampleLib sampleEntity [3] "armored").err ≠ none ∧
    (decrypt sampleLib sampleEntity [3] "armored").plaintext = [] :=
  ⟨by decide, decrypt_error_atomicity sampleLib sampleEntity [3] "armored"
    (by decide)⟩

/-- C4.  Type-label checks: an armored block whose label is not the
private-key type makes `getPrivateKeyPacket` fail with
`invalidKeyType`, and an armored block whose label is not "Message"
makes `decrypt` in armored mode fail with `invalidMessageType`. -/
theorem type_label_checks (lib : PGPLib) (entity : Entity)
    (privateKey encrypted : List Nat) (kb mb : ArmorBlock)
    (hk : lib.armorDecode privateKey = .ok kb)
    (hkl : kb.typeLabel ≠ PrivateKeyType)
    (hm : lib.armorDecode encrypted = .ok mb)
    (hml : mb.typeLabel ≠ "Message") :
    getPrivateKeyPacket lib privateKey = .error .invalidKeyType ∧
    decrypt lib entity encrypted "armored" =
      ⟨[], some .invalidMessageType, []⟩ :=
  ⟨by simp [getPrivateKeyPacket, hk, hkl],
    decrypt_armored_bad_label lib entity encrypted mb hm hml⟩

/-- C4 witness: the sample public-key block at input `[5]` is rejected by
both paths with the respective type errors. -/
theorem type_label_checks_witness :
    getPrivateKeyPacket sampleLib [5] = .error .invalidKeyType ∧
    decrypt sampleLib sampleEntity [5] "armored" =
      ⟨[], some .invalidMessageType, []⟩ :=
  type_label_checks sampleLib sampleEntity [5] [5] pubBlock pubBlock
    (by rfl) (by decide) (by rfl) (by decide)

/-- C5.  Malformed armor framing: when `armor.Decode` rejects the input,
the key-loading path and the armored message-decoding path both fail with
the armor-decode error. -/
theorem malformed_armor_both_paths (lib : PGPLib) (entity : Entity)
    (input : List Nat) (e : String)
    (h : lib.armorDecode input = .error e) :
    getPrivateKeyPacket lib input = .error (.armorDecode e) ∧
    decrypt lib entity input "armored" = ⟨[], some (.armorDecode e), []⟩ :=
  ⟨by simp [getPrivateKeyPacket, h],
    decrypt_armored_armor_error lib entity input e h⟩

/-- C5 witness: input `[99]` has no armor in the sample library; both
paths surface the armor-decode error. -/
theorem malformed_armor_both_paths_witness :
    getPrivateKeyPacket sampleLib [99] = .error (.armorDecode "invalid armor") ∧
    decrypt sampleLib sampleEntity [99] "armored" =
      ⟨[], some (.armorDecode "invalid armor"), []⟩ :=
  malformed_armor_both_paths sampleLib sampleEntity [99] "invalid armor"
    (by rfl)

/-- C6.  Unverified decryption: `decrypt` consults `readMessage` only at
prompt `none` and config `none` (the `nil, nil` of the source), and only
through the unverified body — two libraries that agree on armor and gzip
and whose message reads at `(none, none)` have equal errors and equal
unverified bodies give identical results, however their `signatureError`
fields differ and however they behave at any other prompt or config. -/
theorem decrypt_unverified (lib₁ lib₂ : PGPLib) (entity : Entity)
    (encrypted : List Nat) (encoding : String)
    (hA : lib₁.armorDecode = lib₂.armorDecode)
    (hG : lib₁.gzipNewReader = lib₂.gzipNewReader)
    (hM : ∀ b el, Except.map MessageDetails.unverifiedBody
        (lib₁.readMessage b el none none) =
      Except.map MessageDetails.unverifiedBody
        (lib₂.readMessage b el none none)) :
    decrypt lib₁ entity encrypted encoding =
      decrypt lib₂ entity encrypted encoding := by
  by_cases henc : encoding = "armored"
  · subst henc
    rcases ha : lib₁.armorDecode encrypted with e | block
    · have ha₂ : lib₂.armorDecode encrypted = .error e := by
        rw [← hA]; exact ha
      rw [decrypt_armored_armor_error lib₁ entity encrypted e ha,
        decrypt_armored_armor_error lib₂ entity encrypted e ha₂]
    · have ha₂ : lib₂.armorDecode encrypted = .ok block := by
        rw [← hA]; exact ha
      by_cases hl : block.typeLabel = "Message"
      · rcases mapBody_agree (hM block.body [entity]) with
          ⟨e, h₁, h₂⟩ | ⟨mx, my, h₁, h₂, hbody⟩
        · rw [decrypt_armored_read_message_error lib₁ entity encrypted
            block e ha hl h₁,
            decrypt_armored_read_message_error lib₂ entity encrypted
              block e ha₂ hl h₂]
        · rcases hb : mx.unverifiedBody with e | readBytes
          · have hb₂ : my.unverifiedBody = .error e := by
              rw [← hbody]; exact hb
            rw [decrypt_armored_body_error lib₁ entity encrypted block mx
              e ha hl h₁ hb,
              decrypt_armored_body_error lib₂ entity encrypted block my e
                ha₂ hl h₂ hb₂]
          · have hb₂ : my.unverifiedBody = .ok readBytes := by
              rw [← hbody]; exact hb
            rcases hg : lib₁.gzipNewReader readBytes with e | gz
            · have hg₂ : lib₂.gzipNewReader readBytes = .error e := by
                rw [← hG]; exact hg
              rw [decrypt_armored_gzip_init_error lib₁ entity encrypted
                block mx readBytes e ha hl h₁ hb hg,
                decrypt_armored_gzip_init_error lib₂ entity encrypted
                  block my readBytes e ha₂ hl h₂ hb₂ hg₂]
            · have hg₂ : lib₂.gzipNewReader readBytes = .ok gz := by
                rw [← hG]; exact hg
              rcases hr : gz.readAll with e | out
              · rw [decrypt_armored_gzip_read_error lib₁ entity encrypted
                  block mx readBytes gz e ha hl h₁ hb hg hr,
                  decrypt_armored_gzip_read_error lib₂ entity encrypted
                    block my readBytes gz e ha₂ hl h₂ hb₂ hg₂ hr]
              · rw [decrypt_armored_success lib₁ entity encrypted block mx
                  readBytes gz out ha hl h₁ hb hg hr,
                  decrypt_armored_success lib₂ entity encrypted block my
                    readBytes gz out ha₂ hl h₂ hb₂ hg₂ hr]
      · rw [decrypt_armored_bad_label lib₁ entity encrypted block ha hl,
          decrypt_armored_bad_label lib₂ entity encrypted block ha₂ hl]
  · rcases mapBody_agree (hM encrypted [entity]) with
      ⟨e, h₁, h₂⟩ | ⟨mx, my, h₁, h₂, hbody⟩
    · rw [decrypt_raw_read_message_error lib₁ entity encrypted encoding e
        henc h₁,
        decrypt_raw_read_message_error lib₂ entity encrypted encoding e
          henc h₂]
    · rcases hb : mx.unverifiedBody with e | readBytes
      · have hb₂ : my.unverifiedBody = .error e := by rw [← hbody]; exact hb
        rw [decrypt_raw_body_error lib₁ entity encrypted encoding mx e
          henc h₁ hb,
          decrypt_raw_body_error lib₂ entity encrypted encoding my e
            henc h₂ hb₂]
      · have hb₂ : my.unverifiedBody = .ok readBytes := by
          rw [← hbody]; exact hb
        rw [decrypt_raw_success lib₁ entity encrypted encoding mx readBytes
          henc h₁ hb,
          decrypt_raw_success lib₂ entity encrypted encoding my readBytes
            henc h₂ hb₂]

/-- A variant of `sampleLib` whose message reads report a signature
error on every success and refuse any non-nil prompt or config; armor
and gzip behave as in `sampleLib`. -/
def sampleLibSigned : PGPLib :=
  { sampleLib with
    readMessage := fun b el p c =>
      if p = none ∧ c = none then
        match sampleLib.readMessage b el p c with
        | .error e => .error e
        | .ok md => .ok ⟨md.unverifiedBody, some "forged signature"⟩
      else .error "prompted" }

/-- C6 witness: `sampleLibSigned` attaches a signature error to every
message and rejects non-nil prompts, yet `decrypt` returns the same
result as with `sampleLib` on the armored input `[0]`. -/
theorem decrypt_unverified_witness :
    decrypt sampleLib sampleEntity [0] "armored" =
      decrypt sampleLibSigned sampleEntity [0] "armored" :=
  decrypt_unverified sampleLib sampleLibSigned sampleEntity [0] "armored"
    rfl rfl
    (fun b el => by
      rcases h : sampleLib.readMessage b el none none with e | md <;>
        simp [sampleLibSigned, h, Except.map])

/-- C7.  Truncated ciphertext: when, after a successful armor decode of a
"Message" block, the message read fails or the drained body faults,
`decrypt` returns a `messageRead` or `bodyRead` error with the empty
buffer — no other outcome, no partial output. -/
theorem decrypt_truncated_ciphertext (lib : PGPLib) (entity : Entity)
    (encrypted : List Nat) (block : ArmorBlock)
    (h : lib.armorDecode encrypted = .ok block)
    (hl : block.typeLabel = "Message")
    (hfail : (∃ e, lib.readMessage block.body [entity] none none = .error e) ∨
      (∃ md e, lib.readMessage block.body [entity] none none = .ok md ∧
        md.unverifiedBody = .error e)) :
    ∃ e, decrypt lib entity encrypted "armored" =
        ⟨[], some (.messageRead e), []⟩ ∨
      decrypt lib entity encrypted "armored" =
        ⟨[], some (.bodyRead e), []⟩ := by
  rcases hfail with ⟨e, hm⟩ | ⟨md, e, hm, hb⟩
  · exact ⟨e, .inl (decrypt_armored_read_message_error lib entity
      encrypted block e h hl hm)⟩
  · exact ⟨e, .inr (decrypt_armored_body_error lib entity encrypted block
      md e h hl hm hb)⟩

/-- C7 witness: armored input `[2]` decodes to a "Message" block whose
body drain faults in the sample library; `decrypt` yields an empty
buffer with a body-read error. -/
theorem decrypt_truncated_ciphertext_witness :
    ∃ e, decrypt sampleLib sampleEntity [2] "armored" =
        ⟨[], some (.messageRead e), []⟩ ∨
      decrypt sampleLib sampleEntity [2] "armored" =
        ⟨[], some (.bodyRead e), []⟩ :=
  decrypt_truncated_ciphertext sampleLib sampleEntity [2]
    ⟨"Message", [1, 2]⟩ (by rfl) (by rfl)
    (.inr ⟨⟨.error "unexpected EOF", none⟩, "unexpected EOF", by rfl, by rfl⟩)

/-- C8.  Decompression-reader cleanup: once the gzip reader is
successfully initialized in armored mode, every exit path of `decrypt` —
successful drain and read fault alike — closes it exactly once (one open
event, one close event). -/
theorem decrypt_gzip_closed_once (lib : PGPLib) (entity : Entity)
    (encrypted : List Nat) (block : ArmorBlock) (md : MessageDetails)
    (readBytes : List Nat) (gz : GzipReader)
    (h : lib.armorDecode encrypted = .ok block)
    (hl : block.typeLabel = "Message")
    (hm : lib.readMessage block.body [entity] none none = .ok md)
    (hb : md.unverifiedBody = .ok readBytes)
    (hg : lib.gzipNewReader readBytes = .ok gz) :
    (decrypt lib entity encrypted "armored").events.count Event.gzipOpen = 1 ∧
    (decrypt lib entity encrypted "armored").events.count Event.gzipClose = 1 := by
  rcases hr : gz.readAll with e | out
  · rw [decrypt_armored_gzip_read_error lib entity encrypted block md
      readBytes gz e h hl hm hb hg hr]
    exact ⟨rfl, rfl⟩
  · rw [decrypt_armored_success lib entity encrypted block md readBytes gz
      out h hl hm hb hg hr]
    exact ⟨rfl, rfl⟩

/-- C8 witness: on armored input `[0]` the sample gzip reader opens and
is closed exactly once. -/
theorem decrypt_gzip_closed_once_witness :
    (decrypt sampleLib sampleEntity [0] "armored").events.count
      Event.gzipOpen = 1 ∧
    (decrypt sampleLib sampleEntity [0] "armored").events.count
      Event.gzipClose = 1 :=
  decrypt_gzip_closed_once sampleLib sampleEntity [0] msgBlock
    ⟨.ok [10, 11], none⟩ [10, 11] ⟨.ok [42]⟩
    (by rfl) (by rfl) (by rfl) (by rfl) (by rfl)

/-- C9.  The encoding argument matters only through the test against
"armored": any two non-"armored" encoding strings give identical results,
and in a non-"armored" encoding the result depends only on `readMessage`
— the armor decoder and the gzip reader are never consulted. -/
theorem decrypt_encoding_only_armored (lib lib₂ : PGPLib)
    (entity : Entity) (encrypted : List Nat) (enc₁ enc₂ : String)
    (h₁ : enc₁ ≠ "armored") (h₂ : enc₂ ≠ "armored")
    (hM : lib.readMessage = lib₂.readMessage) :
    decrypt lib entity encrypted enc₁ = decrypt lib entity encrypted enc₂ ∧
    decrypt lib entity encrypted enc₁ = decrypt lib₂ entity encrypted enc₁ := by
  constructor
  · simp [decrypt, h₁, h₂]
  · simp [decrypt, h₁, hM]

/-- A variant of `sampleLib` with unusable armor and gzip oracles but the
same message reader. -/
def sampleLibNoArmor : PGPLib :=
  { sampleLib with
    armorDecode := fun _ => .error "armor disabled",
    gzipNewReader := fun _ => .error "gzip disabled" }

/-- C9 witness: the unvalidated encodings "base64" and "zzz" agree on
input `[1,2,3]`, and disabling armor and gzip leaves the result
unchanged. -/
theorem decrypt_encoding_only_armored_witness :
    decrypt sampleLib sampleEntity [1, 2, 3] "base64" =
      decrypt sampleLib sampleEntity [1, 2, 3] "zzz" ∧
    decrypt sampleLib sampleEntity [1, 2, 3] "base64" =
      decrypt sampleLibNoArmor sampleEntity [1, 2, 3] "base64" :=
  decrypt_encoding_only_armored sampleLib sampleLibNoArmor sampleEntity
    [1, 2, 3] "base64" "zzz" (by decide) (by decide) rfl

/-- C10.  `getPrivateKeyPacket` reads exactly one entity from the armored
block's packet stream: whatever the packet reader leaves unconsumed after
the first entity — further packets, further key entities — is dropped
without error and without affecting the returned entity. -/
theorem getPrivateKeyPacket_one_entity (lib : PGPLib)
    (privateKey : List Nat) (block : ArmorBlock) (entity : Entity)
    (rest : List Nat)
    (h : lib.armorDecode privateKey = .ok block)
    (hl : block.typeLabel = PrivateKeyType)
    (he : lib.readEntity block.body = .ok (entity, rest)) :
    getPrivateKeyPacket lib privateKey = .ok entity := by
  simp [getPrivateKeyPacket, h, hl, he]

/-- C10 witness: the sample key block's body leaves trailing packets
`[4,4]` after the first entity; loading still succeeds with that
entity. -/
theorem getPrivateKeyPacket_one_entity_witness :
    sampleLib.readEntity keyBlock.body = .ok (⟨0⟩, [4, 4]) ∧
    getPrivateKeyPacket sampleLib [7] = .ok ⟨0⟩ :=
  ⟨by rfl, getPrivateKeyPacket_one_entity sampleLib [7] keyBlock ⟨0⟩
    [4, 4] (by rfl) (by rfl) (by rfl)⟩

end PGP
